import Mathlib

/-!
Verification of the M-PESA payment relay (`src/index.js`).

The repository is a single-file Express backend.  We embed its pure logic
shallowly:

* strings are `List Char` (JS strings; literals written `"...".toList`);
* JS truthiness of the values the code tests is made explicit
  (`jsTruthy`, `jsTruthyS`);
* each outbound `axios` call is resolved by an explicit oracle supplied to
  the handler, and the handler additionally returns the list of outbound
  network calls it performed, so that retry-count and mock-mode claims can
  be stated about the call trace.
-/

namespace Mpesa

/-- Characters matched by the JavaScript `\s` class (and removed by
`String.prototype.trim`): ASCII whitespace, NBSP, the Unicode space
separators, line/paragraph separators and the BOM. -/
def isJsSpace (c : Char) : Bool :=
  c = ' ' || c = '\t' || c = '\n' || c = '\r' ||
  c = '\u000B' || c = '\u000C' || c = ' ' || c = ' ' ||
  (0x2000 ≤ c.toNat && c.toNat ≤ 0x200A) ||
  c = ' ' || c = ' ' || c = ' ' || c = ' ' ||
  c = '　' || c = '﻿'

/-- JS `s.trim()` — drop leading and trailing JS whitespace. -/
def jsTrim (s : List Char) : List Char :=
  ((s.dropWhile isJsSpace).reverse.dropWhile isJsSpace).reverse

/-- JS `s.replace(/\s+/g, "")` — remove every JS whitespace character. -/
def stripSpaces (s : List Char) : List Char :=
  s.filter (fun c => !(isJsSpace c))

/-- The regex `/^7\d{8}$/` of `src/index.js` line 111: a `'7'` followed by
exactly eight ASCII digits. -/
def matches7d8 (s : List Char) : Bool :=
  match s with
  | '7' :: rest => rest.length == 8 && rest.all (fun c => c.isDigit)
  | _ => false

/-- Line 107: `if (s.startsWith('+')) s = s.slice(1);`. -/
def step1 (s : List Char) : List Char :=
  if ['+'].isPrefixOf s then s.drop 1 else s

/-- Line 108: `if (s.startsWith('0')) s = '254' + s.slice(1);`. -/
def step2 (s : List Char) : List Char :=
  if ['0'].isPrefixOf s then ['2', '5', '4'] ++ s.drop 1 else s

/-- Lines 109–112:
`if (!s.startsWith('254')) { if (/^7\d{8}$/.test(s)) s = '254' + s; }`. -/
def step3 (s : List Char) : List Char :=
  if !(['2', '5', '4'].isPrefixOf s) && matches7d8 s then
    ['2', '5', '4'] ++ s
  else s

/-- The function `normalizePhone` (`src/index.js` lines 103–114).  The input is the
string the code obtains as `String(p)`; `if (!p) return p` is the guard on
the empty (falsy) string.  `String(p).trim()` followed by the global
whitespace replace is `stripSpaces ∘ jsTrim`. -/
def normalizePhone (p : List Char) : List Char :=
  if p = [] then p
  else step3 (step2 (step1 (stripSpaces (jsTrim p))))

/-- Modelled from the spec's wording of §4.1 (for the refinement claim
about the normalizer): "strip all whitespace; remove a leading `+`;
replace a leading `0` with `254`; if it still does not start with `254`
and matches 7 followed by exactly 8 digits, prepend `254`; otherwise
return as-is". -/
def normalizePhoneSpec (p : List Char) : List Char :=
  let s0 := p.filter (fun c => !(isJsSpace c))
  let s1 := if ['+'].isPrefixOf s0 then s0.drop 1 else s0
  let s2 := if ['0'].isPrefixOf s1 then ['2', '5', '4'] ++ s1.drop 1 else s1
  if !(['2', '5', '4'].isPrefixOf s2) && matches7d8 s2 then
    ['2', '5', '4'] ++ s2
  else s2

/-- Whether `pat` occurs as a contiguous substring of the second argument. -/
def hasSubstr (pat : List Char) : List Char → Bool
  | [] => pat.isEmpty
  | c :: t => pat.isPrefixOf (c :: t) || hasSubstr pat t

/-- Case-insensitive substring test: the JS `/…/i.test(s)` for a regex that
is a literal (ASCII) word sequence, such as `/Invalid Access Token/i`. -/
def containsCI (hay pat : List Char) : Bool :=
  hasSubstr (pat.map Char.toLower) (hay.map Char.toLower)

/-- A JSON scalar as it reaches the handler from `req.body`: the request
fields `phone` and `amount` are used only through JS truthiness,
`String(…)` conversion and verbatim forwarding, so strings, (integer)
numbers and `undefined` cover the behaviours the code distinguishes. -/
inductive JsVal where
  | vstr (s : List Char)
  | vnum (n : Int)
  | vundef
deriving DecidableEq, Repr

/-- JS truthiness of a `JsVal` (`!phone`, `!amount` checks): `undefined`,
`""` and `0` are falsy. -/
def jsTruthy : JsVal → Bool
  | .vstr s => !s.isEmpty
  | .vnum n => !(n == 0)
  | .vundef => false

/-- JS `String(v)` for the values above. -/
def jsToString : JsVal → List Char
  | .vstr s => s
  | .vnum n => (toString n).toList
  | .vundef => "undefined".toList

/-- JS truthiness of an optional string (environment variables, token
values): absent and `""` are falsy. -/
def jsTruthyS : Option (List Char) → Bool
  | none => false
  | some s => !s.isEmpty

/-- JS `name || 'customer'` — the `||` default on an optional string. -/
def jsOr (v : Option (List Char)) (dflt : List Char) : List Char :=
  match v with
  | some s => if s.isEmpty then dflt else s
  | none => dflt

/-- UTF-8 encoding of one character (byte values as `Nat`). -/
def utf8Bytes (c : Char) : List Nat :=
  let n := c.toNat
  if n < 0x80 then [n]
  else if n < 0x800 then [0xC0 + n / 64, 0x80 + n % 64]
  else if n < 0x10000 then
    [0xE0 + n / 4096, 0x80 + (n / 64) % 64, 0x80 + n % 64]
  else
    [0xF0 + n / 262144, 0x80 + (n / 4096) % 64, 0x80 + (n / 64) % 64,
     0x80 + n % 64]

/-- The base64 alphabet. -/
def base64Chars : List Char :=
  "ABCDEFGHIJKLMNOPQRSTUVWXYZabcdefghijklmnopqrstuvwxyz0123456789+/".toList

/-- Digit `n < 64` of the base64 alphabet. -/
def b64digit (n : Nat) : Char := base64Chars.getD n 'A'

/-- Standard base64 of a byte sequence, with `=` padding. -/
def base64Encode : List Nat → List Char
  | [] => []
  | [a] => [b64digit (a / 4), b64digit (a % 4 * 16), '=', '=']
  | [a, b] =>
    [b64digit (a / 4), b64digit (a % 4 * 16 + b / 16), b64digit (b % 16 * 4),
     '=']
  | a :: b :: c :: rest =>
    [b64digit (a / 4), b64digit (a % 4 * 16 + b / 16),
     b64digit (b % 16 * 4 + c / 64), b64digit (c % 64)] ++ base64Encode rest

/-- JS `Buffer.from(s).toString("base64")` — base64 of the UTF-8 bytes. -/
def jsBase64 (s : List Char) : List Char :=
  base64Encode ((s.map utf8Bytes).flatten)

/-- Line 119: `new Date().toISOString().replace(/[-T:\.Z]/g, "").slice(0, 14)`,
applied to the ISO timestamp string the clock produced. -/
def mpesaTimestamp (nowIso : List Char) : List Char :=
  (nowIso.filter (fun c => !(['-', 'T', ':', '.', 'Z'].contains c))).take 14

/-- The process configuration read from `process.env` (lines 13–22).
`CONSUMER_KEY`/`CONSUMER_SECRET` are kept optional because the code tests
their truthiness; the remaining variables are only interpolated. -/
structure Config where
  consumerKey : Option (List Char)
  consumerSecret : Option (List Char)
  businessShortcode : List Char
  mpesaPasskey : List Char
  callbackUrl : List Char
  mpesaMock : Bool
deriving DecidableEq, Repr

/-- The STK push payload built at lines 122–134. -/
structure StkPayload where
  BusinessShortCode : List Char
  Password : List Char
  Timestamp : List Char
  TransactionType : List Char
  Amount : JsVal
  PartyA : List Char
  PartyB : List Char
  PhoneNumber : List Char
  CallBackURL : List Char
  AccountReference : List Char
  TransactionDesc : List Char
deriving DecidableEq, Repr

/-- Payload construction (lines 116–134): normalize the phone once, use it
for both `PartyA` and `PhoneNumber`; `Password` is
`base64(shortcode + passkey + timestamp)`; `Amount` is the request's
amount verbatim. -/
def buildPayload (cfg : Config) (phone amount : JsVal)
    (name : Option (List Char)) (timestamp : List Char) : StkPayload :=
  let partyA := normalizePhone (jsToString phone)
  { BusinessShortCode := cfg.businessShortcode
    Password := jsBase64 (cfg.businessShortcode ++ cfg.mpesaPasskey ++
      timestamp)
    Timestamp := timestamp
    TransactionType := "CustomerPayBillOnline".toList
    Amount := amount
    PartyA := partyA
    PartyB := cfg.businessShortcode
    PhoneNumber := partyA
    CallBackURL := cfg.callbackUrl
    AccountReference := "MPESA_PAYMENT".toList
    TransactionDesc := "Payment by ".toList ++ jsOr name "customer".toList }

/-- Body of a successful token-endpoint response; the code reads only
`response.data.access_token` (line 70), which an arbitrary JSON body may
lack. -/
structure TokenBody where
  access_token : Option (List Char)
deriving DecidableEq, Repr

/-- Outcome of the outbound `axios.get` of the token endpoint: either it
resolves with a body, or it rejects (transport error or non-2xx status)
with the description string the `catch` at line 72 extracts. -/
inductive TokenFetch where
  | ok (data : TokenBody)
  | fail (description : List Char)
deriving DecidableEq, Repr

/-- Error body attached to a rejected STK request
(`err.response?.data`); the retry predicate at line 161 reads `errorCode`
and `errorMessage`, and `requestId` stands for the remaining fields of
the gateway's error JSON. -/
structure StkErrBody where
  errorCode : Option (List Char)
  errorMessage : Option (List Char)
  requestId : Option (List Char)
deriving DecidableEq, Repr

/-- Body of an STK response that arrived with an HTTP 2xx status; the
code reads `ResponseCode` (line 183), and the other two fields stand for
the rest of the gateway's JSON. -/
structure StkBody where
  ResponseCode : Option (List Char)
  CustomerMessage : Option (List Char)
  MerchantRequestID : Option (List Char)
deriving DecidableEq, Repr

/-- Outcome of one outbound `axios.post` of the STK endpoint: resolve
with a body (HTTP 2xx; `none` models a falsy `response.data`), or reject
with an optional error body (`err.response?.data`) and the error
message. -/
inductive StkOutcome where
  | ok (data : Option StkBody)
  | err (remote : Option StkErrBody) (message : List Char)
deriving DecidableEq, Repr

/-- One outbound network call, as recorded in the handler's trace. -/
inductive NetCall where
  | tokenGet
  | stkPost (bearer : List Char) (payload : StkPayload)
deriving DecidableEq, Repr

/-- Result of `getAccessToken`: the returned value, the console lines it
produced, and the outbound calls it made. -/
structure TokenAcq where
  token : Option (List Char)
  logs : List (List Char)
  calls : List NetCall
deriving DecidableEq, Repr

/-- The function `getAccessToken` (`src/index.js` lines 44–75).  In mock mode it
returns the fixed dummy token without touching the network; with a falsy
`CONSUMER_KEY` or `CONSUMER_SECRET` it logs and returns `null`; otherwise
it performs the GET and either returns `response.data.access_token` or —
on any rejection — logs the description and returns `null`.  The
`try`/`catch` covers the whole request, so the function never throws. -/
def getAccessToken (cfg : Config) (fetch : TokenFetch) : TokenAcq :=
  if cfg.mpesaMock then
    { token := some "mock-access-token".toList, logs := [], calls := [] }
  else if !(jsTruthyS cfg.consumerKey) || !(jsTruthyS cfg.consumerSecret) then
    { token := none
      logs :=
        ["Cannot fetch access token: missing CONSUMER_KEY or CONSUMER_SECRET".toList]
      calls := [] }
  else
    match fetch with
    | .ok d =>
      { token := d.access_token
        logs := ["Fetched access token successfully".toList]
        calls := [.tokenGet] }
    | .fail desc =>
      { token := none
        logs := ["Error fetching token: ".toList ++ desc]
        calls := [.tokenGet] }

/-- The retry predicate of line 161:
`remote && (remote.errorCode === '404.001.03' ||
/Invalid Access Token/i.test(remote.errorMessage || ''))`. -/
def isTokenError (remote : Option StkErrBody) : Bool :=
  match remote with
  | none => false
  | some r =>
    r.errorCode == some "404.001.03".toList ||
    containsCI (r.errorMessage.getD []) "Invalid Access Token".toList

/-- A `details` value of an error response: the STK response body
(line 190), a rejected request's error body, or — when the rejection has
no body — its error message (`remote || err.message`). -/
inductive Details where
  | stk (b : StkBody)
  | errB (b : StkErrBody)
  | msg (m : List Char)
deriving DecidableEq, Repr

/-- An HTTP response of `POST /api/pay` (status, `success`, `message`,
optional `details`). -/
structure ApiResp where
  status : Nat
  success : Bool
  message : List Char
  details : Option Details
deriving DecidableEq, Repr

/-- Lines 169 and 177: `err.response?.data || err.message`. -/
def errDetails (remote : Option StkErrBody) (message : List Char) : Details :=
  match remote with
  | some r => .errB r
  | none => .msg message

/-- Lines 183–192: a resolved STK response maps to
`200 {success:true}` exactly when `response.data` is truthy and its
`ResponseCode` is the string `"0"`; otherwise to
`400 {success:false, details: response.data || null}`. -/
def stkRespToApi (data : Option StkBody) : ApiResp :=
  match data with
  | some b =>
    if b.ResponseCode == some "0".toList then
      { status := 200, success := true,
        message := "STK Push sent to phone.".toList, details := none }
    else
      { status := 400, success := false,
        message := "Failed to send STK Push.".toList,
        details := some (.stk b) }
  | none =>
    { status := 400, success := false,
      message := "Failed to send STK Push.".toList, details := none }

/-- How the retry block (lines 163–173) turns the resubmission's outcome
into the final response: a resolved response goes through the normal
`ResponseCode` check, a rejected one becomes
`502 {message:"STK request failed after token refresh", details}`. -/
def stk2Response : StkOutcome → ApiResp
  | .ok data2 => stkRespToApi data2
  | .err remote2 message2 =>
    { status := 502, success := false,
      message := "STK request failed after token refresh".toList,
      details := some (errDetails remote2 message2) }

/-- The outcomes of the (at most four) outbound calls a single
`POST /api/pay` request can make, in program order. -/
structure Oracle where
  fetch1 : TokenFetch
  stk1 : StkOutcome
  fetch2 : TokenFetch
  stk2 : StkOutcome
deriving DecidableEq, Repr

/-- The `POST /api/pay` handler (`src/index.js` lines 78–197), returning
the HTTP response and the trace of outbound network calls.  Notes kept
from the source: the truthiness validation precedes everything; the mock
short-circuit precedes token acquisition; the second `!access_token`
check at line 98 repeats line 93 and is dead; the inner
`if (MPESA_MOCK)` at line 151 is unreachable because the outer
short-circuit already returned, but is embedded for fidelity; the outer
`catch` at line 193 (500 "Server error") is unreachable in this model
since every rejection is already handled. -/
def apiPay (cfg : Config) (phone amount : JsVal) (name : Option (List Char))
    (nowIso : List Char) (o : Oracle) : ApiResp × List NetCall :=
  if !(jsTruthy phone) || !(jsTruthy amount) then
    ({ status := 400, success := false,
       message := "Missing phone or amount in request body.".toList,
       details := none }, [])
  else if cfg.mpesaMock then
    ({ status := 200, success := true,
       message := "STK Push sent to phone. (mock)".toList,
       details := none }, [])
  else
    let acq1 := getAccessToken cfg o.fetch1
    if !(jsTruthyS acq1.token) then
      ({ status := 500, success := false,
         message := "Server not configured to fetch access token. Check environment variables.".toList,
         details := none }, acq1.calls)
    else
      let tok1 := acq1.token.getD []
      let payload := buildPayload cfg phone amount name
        (mpesaTimestamp nowIso)
      if cfg.mpesaMock then
        (stkRespToApi (some
          { ResponseCode := some "0".toList
            CustomerMessage :=
              some "Success. Request accepted for processing".toList
            MerchantRequestID := none }), acq1.calls)
      else
        match o.stk1 with
        | .ok data => (stkRespToApi data,
            acq1.calls ++ [.stkPost tok1 payload])
        | .err remote _message =>
          if isTokenError remote then
            let acq2 := getAccessToken cfg o.fetch2
            if jsTruthyS acq2.token then
              let tok2 := acq2.token.getD []
              (stk2Response o.stk2,
               acq1.calls ++ [.stkPost tok1 payload] ++ acq2.calls ++
                 [.stkPost tok2 payload])
            else
              ({ status := 502, success := false,
                 message := "Unable to refresh access token. Check credentials.".toList,
                 details := none },
               acq1.calls ++ [.stkPost tok1 payload] ++ acq2.calls)
          else
            ({ status := 502, success := false,
               message := "STK request failed".toList,
               details := some (errDetails remote _message) },
             acq1.calls ++ [.stkPost tok1 payload])

/-- An HTTP response of `GET /api/token` (status, `success`, `message`,
optional masked `token`). -/
structure TokenApiResp where
  status : Nat
  success : Bool
  message : List Char
  token : Option (List Char)
deriving DecidableEq, Repr

/-- The `GET /api/token` handler (`src/index.js` lines 200–211): mock
mode returns the fixed masked placeholder; a falsy token yields 502;
otherwise the response's `token` is `token.slice(0, 6) + '...'`.  The
`catch` (500) is unreachable since `getAccessToken` never throws. -/
def apiToken (cfg : Config) (fetch : TokenFetch) : TokenApiResp :=
  if cfg.mpesaMock then
    { status := 200, success := true,
      message := "Fetched access token (mock)".toList,
      token := some "mock-a...".toList }
  else
    let acq := getAccessToken cfg fetch
    if !(jsTruthyS acq.token) then
      { status := 502, success := false,
        message := "Unable to fetch access token. Check credentials.".toList,
        token := none }
    else
      { status := 200, success := true,
        message := "Fetched access token".toList,
        token := some ((acq.token.getD []).take 6 ++ "...".toList) }

/-- Number of token-endpoint calls in a trace. -/
def countTokenCalls : List NetCall → Nat
  | [] => 0
  | .tokenGet :: t => countTokenCalls t + 1
  | .stkPost _ _ :: t => countTokenCalls t

/-- Number of STK submissions in a trace. -/
def countStkCalls : List NetCall → Nat
  | [] => 0
  | .tokenGet :: t => countStkCalls t
  | .stkPost _ _ :: t => countStkCalls t + 1

/-! ### Lemmas about `getAccessToken` and the `/api/pay` run -/

theorem jsTruthyS_true {o : Option (List Char)} (h : jsTruthyS o = true) :
    ∃ t, o = some t ∧ t.isEmpty = false := by
  cases o with
  | none => exact absurd h (by simp [jsTruthyS])
  | some t =>
    refine ⟨t, rfl, ?_⟩
    simpa [jsTruthyS] using h

theorem getAccessToken_calls_live (cfg : Config) (f : TokenFetch)
    (hm : cfg.mpesaMock = false) (hk : jsTruthyS cfg.consumerKey = true)
    (hs : jsTruthyS cfg.consumerSecret = true) :
    (getAccessToken cfg f).calls = [.tokenGet] := by
  cases f <;> simp [getAccessToken, hm, hk, hs]

theorem getAccessToken_token_some (cfg : Config) (f : TokenFetch)
    (hm : cfg.mpesaMock = false) (tok : List Char)
    (ht : (getAccessToken cfg f).token = some tok) :
    jsTruthyS cfg.consumerKey = true ∧ jsTruthyS cfg.consumerSecret = true ∧
      (getAccessToken cfg f).calls = [.tokenGet] ∧
      ∃ d, f = .ok d ∧ d.access_token = some tok := by
  by_cases hk : jsTruthyS cfg.consumerKey = true
  · by_cases hs : jsTruthyS cfg.consumerSecret = true
    · refine ⟨hk, hs, getAccessToken_calls_live cfg f hm hk hs, ?_⟩
      cases f with
      | ok d =>
        refine ⟨d, rfl, ?_⟩
        simpa [getAccessToken, hm, hk, hs] using ht
      | fail desc => simp [getAccessToken, hm, hk, hs] at ht
    · have hs' : jsTruthyS cfg.consumerSecret = false :=
        Bool.eq_false_iff.mpr hs
      simp [getAccessToken, hm, hs'] at ht
  · have hk' : jsTruthyS cfg.consumerKey = false := Bool.eq_false_iff.mpr hk
    simp [getAccessToken, hm, hk'] at ht

theorem apiPay_validation_fail (cfg : Config) (phone amount : JsVal)
    (name : Option (List Char)) (nowIso : List Char) (o : Oracle)
    (h : (!(jsTruthy phone) || !(jsTruthy amount)) = true) :
    apiPay cfg phone amount name nowIso o =
      ({ status := 400, success := false,
         message := "Missing phone or amount in request body.".toList,
         details := none }, []) := by
  simp [apiPay, h]

theorem apiPay_mock_run (cfg : Config) (phone amount : JsVal)
    (name : Option (List Char)) (nowIso : List Char) (o : Oracle)
    (hm : cfg.mpesaMock = true) (hp : jsTruthy phone = true)
    (ha : jsTruthy amount = true) :
    apiPay cfg phone amount name nowIso o =
      ({ status := 200, success := true,
         message := "STK Push sent to phone. (mock)".toList,
         details := none }, []) := by
  simp [apiPay, hm, hp, ha]

theorem apiPay_token_unavailable (cfg : Config) (phone amount : JsVal)
    (name : Option (List Char)) (nowIso : List Char) (o : Oracle)
    (hm : cfg.mpesaMock = false) (hp : jsTruthy phone = true)
    (ha : jsTruthy amount = true)
    (ht : jsTruthyS (getAccessToken cfg o.fetch1).token = false) :
    apiPay cfg phone amount name nowIso o =
      ({ status := 500, success := false,
         message := "Server not configured to fetch access token. Check environment variables.".toList,
         details := none }, (getAccessToken cfg o.fetch1).calls) := by
  simp [apiPay, hm, hp, ha, ht]

theorem apiPay_first_ok (cfg : Config) (phone amount : JsVal)
    (name : Option (List Char)) (nowIso : List Char)
    (f1 : TokenFetch) (data : Option StkBody) (f2 : TokenFetch)
    (s2 : StkOutcome) (tok : List Char)
    (hm : cfg.mpesaMock = false) (hp : jsTruthy phone = true)
    (ha : jsTruthy amount = true)
    (htok : (getAccessToken cfg f1).token = some tok)
    (hne : tok.isEmpty = false) :
    apiPay cfg phone amount name nowIso ⟨f1, .ok data, f2, s2⟩ =
      (stkRespToApi data,
       [.tokenGet,
        .stkPost tok (buildPayload cfg phone amount name
          (mpesaTimestamp nowIso))]) := by
  obtain ⟨hk, hs, hcalls, -⟩ := getAccessToken_token_some cfg f1 hm tok htok
  simp [apiPay, hm, hp, ha, htok, hne, jsTruthyS, hcalls]

theorem apiPay_retry_ok (cfg : Config) (phone amount : JsVal)
    (name : Option (List Char)) (nowIso : List Char)
    (f1 : TokenFetch) (remote : Option StkErrBody) (msg : List Char)
    (f2 : TokenFetch) (s2 : StkOutcome) (tok tok2 : List Char)
    (hm : cfg.mpesaMock = false) (hp : jsTruthy phone = true)
    (ha : jsTruthy amount = true)
    (htok : (getAccessToken cfg f1).token = some tok)
    (hne : tok.isEmpty = false)
    (herr : isTokenError remote = true)
    (htok2 : (getAccessToken cfg f2).token = some tok2)
    (hne2 : tok2.isEmpty = false) :
    apiPay cfg phone amount name nowIso ⟨f1, .err remote msg, f2, s2⟩ =
      (stk2Response s2,
       [.tokenGet,
        .stkPost tok (buildPayload cfg phone amount name
          (mpesaTimestamp nowIso)),
        .tokenGet,
        .stkPost tok2 (buildPayload cfg phone amount name
          (mpesaTimestamp nowIso))]) := by
  obtain ⟨hk, hs, hcalls, -⟩ := getAccessToken_token_some cfg f1 hm tok htok
  have hcalls2 := getAccessToken_calls_live cfg f2 hm hk hs
  simp [apiPay, hm, hp, ha, htok, hne, herr, htok2, hne2, jsTruthyS, hcalls,
    hcalls2]

theorem apiPay_retry_refresh_fail (cfg : Config) (phone amount : JsVal)
    (name : Option (List Char)) (nowIso : List Char)
    (f1 : TokenFetch) (remote : Option StkErrBody) (msg : List Char)
    (f2 : TokenFetch) (s2 : StkOutcome) (tok : List Char)
    (hm : cfg.mpesaMock = false) (hp : jsTruthy phone = true)
    (ha : jsTruthy amount = true)
    (htok : (getAccessToken cfg f1).token = some tok)
    (hne : tok.isEmpty = false)
    (herr : isTokenError remote = true)
    (htok2 : jsTruthyS (getAccessToken cfg f2).token = false) :
    apiPay cfg phone amount name nowIso ⟨f1, .err remote msg, f2, s2⟩ =
      ({ status := 502, success := false,
         message := "Unable to refresh access token. Check credentials.".toList,
         details := none },
       [.tokenGet,
        .stkPost tok (buildPayload cfg phone amount name
          (mpesaTimestamp nowIso)),
        .tokenGet]) := by
  obtain ⟨hk, hs, hcalls, -⟩ := getAccessToken_token_some cfg f1 hm tok htok
  have hcalls2 := getAccessToken_calls_live cfg f2 hm hk hs
  have h1 : jsTruthyS (some tok) = true := by simp [jsTruthyS, hne]
  simp [apiPay, hm, hp, ha, h1, htok, herr, htok2, hcalls, hcalls2]

theorem apiPay_no_retry (cfg : Config) (phone amount : JsVal)
    (name : Option (List Char)) (nowIso : List Char)
    (f1 : TokenFetch) (remote : Option StkErrBody) (msg : List Char)
    (f2 : TokenFetch) (s2 : StkOutcome) (tok : List Char)
    (hm : cfg.mpesaMock = false) (hp : jsTruthy phone = true)
    (ha : jsTruthy amount = true)
    (htok : (getAccessToken cfg f1).token = some tok)
    (hne : tok.isEmpty = false)
    (herr : isTokenError remote = false) :
    apiPay cfg phone amount name nowIso ⟨f1, .err remote msg, f2, s2⟩ =
      ({ status := 502, success := false,
         message := "STK request failed".toList,
         details := some (errDetails remote msg) },
       [.tokenGet,
        .stkPost tok (buildPayload cfg phone amount name
          (mpesaTimestamp nowIso))]) := by
  obtain ⟨hk, hs, hcalls, -⟩ := getAccessToken_token_some cfg f1 hm tok htok
  simp [apiPay, hm, hp, ha, htok, hne, herr, jsTruthyS, hcalls]

/-! ### Lemmas about the phone normalizer -/

theorem filter_dropWhile_isJsSpace (l : List Char) :
    (l.dropWhile isJsSpace).filter (fun c => !(isJsSpace c)) =
      l.filter (fun c => !(isJsSpace c)) := by
  induction l with
  | nil => rfl
  | cons c t ih =>
    by_cases h : isJsSpace c
    · rw [List.dropWhile_cons, if_pos h, List.filter_cons, ih]
      simp [h]
    · rw [List.dropWhile_cons, if_neg h]

theorem stripSpaces_jsTrim (p : List Char) :
    stripSpaces (jsTrim p) = stripSpaces p := by
  unfold stripSpaces jsTrim
  rw [List.filter_reverse, filter_dropWhile_isJsSpace, List.filter_reverse,
    filter_dropWhile_isJsSpace, List.reverse_reverse]

theorem nonspace_stripSpaces (p : List Char) :
    ∀ a ∈ stripSpaces p, isJsSpace a = false := by
  intro a ha
  have h := (List.mem_filter.mp ha).2
  simpa using h

theorem dropWhile_eq_self_nonspace (s : List Char)
    (hs : ∀ a ∈ s, isJsSpace a = false) : s.dropWhile isJsSpace = s := by
  cases s with
  | nil => rfl
  | cons c t =>
    rw [List.dropWhile_cons, if_neg]
    simp [hs c (List.mem_cons_self c t)]

theorem jsTrim_eq_self (s : List Char)
    (hs : ∀ a ∈ s, isJsSpace a = false) : jsTrim s = s := by
  unfold jsTrim
  rw [dropWhile_eq_self_nonspace s hs,
    dropWhile_eq_self_nonspace s.reverse
      (fun a ha => hs a (List.mem_reverse.mp ha)),
    List.reverse_reverse]

theorem stripSpaces_eq_self (s : List Char)
    (hs : ∀ a ∈ s, isJsSpace a = false) : stripSpaces s = s :=
  List.filter_eq_self.mpr (fun a ha => by simp [hs a ha])

theorem nonspace_step1 (s : List Char)
    (hs : ∀ a ∈ s, isJsSpace a = false) :
    ∀ a ∈ step1 s, isJsSpace a = false := by
  unfold step1
  split
  · exact fun a ha => hs a (List.mem_of_mem_drop ha)
  · exact hs

theorem nonspace_step2 (s : List Char)
    (hs : ∀ a ∈ s, isJsSpace a = false) :
    ∀ a ∈ step2 s, isJsSpace a = false := by
  unfold step2
  split
  · intro a ha
    rcases List.mem_append.mp ha with h | h
    · have h' : a = '2' ∨ a = '5' ∨ a = '4' := by simpa using h
      rcases h' with rfl | rfl | rfl <;> decide
    · exact hs a (List.mem_of_mem_drop h)
  · exact hs

theorem nonspace_step3 (s : List Char)
    (hs : ∀ a ∈ s, isJsSpace a = false) :
    ∀ a ∈ step3 s, isJsSpace a = false := by
  unfold step3
  split
  · intro a ha
    rcases List.mem_append.mp ha with h | h
    · have h' : a = '2' ∨ a = '5' ∨ a = '4' := by simpa using h
      rcases h' with rfl | rfl | rfl <;> decide
    · exact hs a h
  · exact hs

theorem step1_eq_self (s : List Char) (h : ['+'].isPrefixOf s = false) :
    step1 s = s := by
  unfold step1
  rw [h]
  rfl

theorem step2_eq_self (s : List Char) (h : ['0'].isPrefixOf s = false) :
    step2 s = s := by
  unfold step2
  rw [h]
  rfl

theorem step3_eq_self (s : List Char)
    (h : (!(['2', '5', '4'].isPrefixOf s) && matches7d8 s) = false) :
    step3 s = s := by
  unfold step3
  rw [h]
  rfl

theorem step1_no_plus (s : List Char)
    (h : ['+', '+'].isPrefixOf s = false) :
    ['+'].isPrefixOf (step1 s) = false := by
  unfold step1
  match s with
  | [] => decide
  | c :: t =>
    by_cases hc : c = '+'
    · subst hc
      have hpt : ['+'].isPrefixOf t = false := by
        simpa [List.isPrefixOf] using h
      simp [List.isPrefixOf, hpt]
    · simp [List.isPrefixOf, Ne.symm hc]

theorem step2_no_plus (s : List Char) (h : ['+'].isPrefixOf s = false) :
    ['+'].isPrefixOf (step2 s) = false := by
  unfold step2
  split
  · simp [List.isPrefixOf]
  · exact h

theorem step2_no_zero (s : List Char) :
    ['0'].isPrefixOf (step2 s) = false := by
  unfold step2
  split
  · simp [List.isPrefixOf]
  · next h => exact Bool.eq_false_iff.mpr h

theorem step3_no_plus (s : List Char) (h : ['+'].isPrefixOf s = false) :
    ['+'].isPrefixOf (step3 s) = false := by
  unfold step3
  split
  · simp [List.isPrefixOf]
  · exact h

theorem step3_no_zero (s : List Char) (h : ['0'].isPrefixOf s = false) :
    ['0'].isPrefixOf (step3 s) = false := by
  unfold step3
  split
  · simp [List.isPrefixOf]
  · exact h

theorem step3_canon (s : List Char) :
    (!(['2', '5', '4'].isPrefixOf (step3 s)) && matches7d8 (step3 s)) =
      false := by
  unfold step3
  split
  · next h => simp [List.isPrefixOf]
  · next h => exact Bool.eq_false_iff.mpr h

theorem normStep_idem (s : List Char)
    (h : ['+', '+'].isPrefixOf s = false) :
    step3 (step2 (step1 (step3 (step2 (step1 s))))) =
      step3 (step2 (step1 s)) := by
  have h1 : ['+'].isPrefixOf (step1 s) = false := step1_no_plus s h
  have h2p : ['+'].isPrefixOf (step2 (step1 s)) = false :=
    step2_no_plus _ h1
  have h2z : ['0'].isPrefixOf (step2 (step1 s)) = false := step2_no_zero _
  have h3p : ['+'].isPrefixOf (step3 (step2 (step1 s))) = false :=
    step3_no_plus _ h2p
  have h3z : ['0'].isPrefixOf (step3 (step2 (step1 s))) = false :=
    step3_no_zero _ h2z
  have h3c := step3_canon (step2 (step1 s))
  rw [step1_eq_self _ h3p, step2_eq_self _ h3z, step3_eq_self _ h3c]

/-- Claim **C2**: the phone normalizer applies, in order: strip all whitespace,
remove one leading `+`, replace a leading `0` with `254`, and prepend
`254` when the result still does not start with `254` and matches
"7 followed by exactly 8 digits"; otherwise the value passes through
unchanged (the function is total, so no exception can be raised).  In
particular `"0712345678"`, `"+254712345678"` and `"712345678"` all
normalize to `"254712345678"`.  Formally: `normalizePhone` (embedded from
the code, with JS `trim` + global whitespace replace) agrees everywhere
with `normalizePhoneSpec` (written from the spec's wording), and the three
examples evaluate as stated. -/
theorem normalizePhone_matches_spec :
    (∀ p : List Char, normalizePhone p = normalizePhoneSpec p) ∧
    normalizePhone "0712345678".toList = "254712345678".toList ∧
    normalizePhone "+254712345678".toList = "254712345678".toList ∧
    normalizePhone "712345678".toList = "254712345678".toList := by
  refine ⟨?_, by decide, by decide, by decide⟩
  intro p
  by_cases hp : p = []
  · subst hp; decide
  · show (if p = [] then p
        else step3 (step2 (step1 (stripSpaces (jsTrim p))))) = _
    rw [if_neg hp, stripSpaces_jsTrim]
    rfl

/-- Claim **C9** counterexample: the normalizer is *not* idempotent.  On the
input `"++712345678"` one application yields `"+712345678"` (only one
leading `+` is removed), while a second application strips the remaining
`+` and then prepends `254`, yielding `"254712345678"`. -/
theorem normalizePhone_idem_counterexample :
    normalizePhone (normalizePhone "++712345678".toList) ≠
      normalizePhone "++712345678".toList := by decide

/-- Claim **C9** (amended): the phone normalizer is idempotent on every input
whose whitespace-stripped form does not begin with two `+` characters
(applying it twice then equals applying it once), and any
whitespace-free input already starting with `254` — in particular a
canonical `"2547XXXXXXXX"` value — is returned unchanged. -/
theorem normalizePhone_idem_amended :
    (∀ p : List Char, ['+', '+'].isPrefixOf (stripSpaces p) = false →
      normalizePhone (normalizePhone p) = normalizePhone p) ∧
    (∀ s : List Char, (∀ a ∈ s, isJsSpace a = false) →
      ['2', '5', '4'].isPrefixOf s = true → normalizePhone s = s) := by
  constructor
  · intro p h
    by_cases hp : p = []
    · subst hp; rfl
    · have hleft : normalizePhone p =
          step3 (step2 (step1 (stripSpaces p))) := by
        show (if p = [] then p
            else step3 (step2 (step1 (stripSpaces (jsTrim p))))) = _
        rw [if_neg hp, stripSpaces_jsTrim]
      rw [hleft]
      set r := step3 (step2 (step1 (stripSpaces p))) with hr
      by_cases hrnil : r = []
      · rw [hrnil]; rfl
      · have hnos : ∀ a ∈ r, isJsSpace a = false := by
          rw [hr]
          exact nonspace_step3 _ (nonspace_step2 _ (nonspace_step1 _
            (nonspace_stripSpaces p)))
        show (if r = [] then r
            else step3 (step2 (step1 (stripSpaces (jsTrim r))))) = r
        rw [if_neg hrnil, jsTrim_eq_self r hnos, stripSpaces_eq_self r hnos,
          hr]
        exact normStep_idem _ h
  · intro s hns h254
    match s, hns, h254 with
    | [], _, h254 => exact absurd h254 (by decide)
    | c :: t, hns, h254 =>
      have hc : c = '2' := by
        by_contra hc
        simp [List.isPrefixOf, Ne.symm hc] at h254
      subst hc
      have h1 : step1 ('2' :: t) = '2' :: t :=
        step1_eq_self _ (by simp [List.isPrefixOf])
      have h2 : step2 ('2' :: t) = '2' :: t :=
        step2_eq_self _ (by simp [List.isPrefixOf])
      have h3 : step3 ('2' :: t) = '2' :: t :=
        step3_eq_self _ (by rw [h254]; rfl)
      show (if ('2' :: t : List Char) = [] then '2' :: t
          else step3 (step2 (step1 (stripSpaces (jsTrim ('2' :: t)))))) =
        '2' :: t
      rw [if_neg (by simp), jsTrim_eq_self _ hns, stripSpaces_eq_self _ hns,
        h1, h2, h3]

/-- Witness for the amended C9: both parts instantiated on concrete
inputs, with the hypotheses discharged by evaluation. -/
theorem normalizePhone_idem_amended_witness :
    (['+', '+'].isPrefixOf (stripSpaces "0712345678".toList) = false ∧
      normalizePhone (normalizePhone "0712345678".toList) =
        normalizePhone "0712345678".toList) ∧
    ((∀ a ∈ "254712345678".toList, isJsSpace a = false) ∧
      normalizePhone "254712345678".toList = "254712345678".toList) :=
  ⟨⟨by decide, normalizePhone_idem_amended.1 _ (by decide)⟩,
   ⟨by decide, normalizePhone_idem_amended.2 _ (by decide) (by decide)⟩⟩

/-! ### Concrete fixtures used by witnesses -/

/-- A live (non-mock) configuration with both credentials present. -/
def cfgLive : Config :=
  { consumerKey := some "ck".toList, consumerSecret := some "cs".toList,
    businessShortcode := "174379".toList, mpesaPasskey := "pk".toList,
    callbackUrl := "https://example.com/mpesa/callback".toList,
    mpesaMock := false }

/-- The same configuration with mock mode on. -/
def cfgMock : Config := { cfgLive with mpesaMock := true }

/-- A concrete request phone value. -/
def phoneEx : JsVal := .vstr "0712345678".toList

/-- A concrete request amount value. -/
def amountEx : JsVal := .vnum 10

/-- A concrete clock reading. -/
def nowIsoEx : List Char := "2024-01-01T12:00:00.000Z".toList

/-- A gateway error body carrying the expired-token error code. -/
def tokenErrEx : StkErrBody :=
  { errorCode := some "404.001.03".toList, errorMessage := none,
    requestId := some "req-1".toList }

/-- A resolved STK response with the accepted `ResponseCode "0"`. -/
def stkOkEx : StkOutcome :=
  .ok (some { ResponseCode := some "0".toList, CustomerMessage := none,
              MerchantRequestID := none })

/-- An oracle for the retry scenario: first token fetch succeeds, first
submission is rejected with the expired-token code, the refresh succeeds
with a different token, and the resubmission is accepted. -/
def oracleRetryEx : Oracle :=
  { fetch1 := .ok ⟨some "tokenA".toList⟩
    stk1 := .err (some tokenErrEx) "Request failed with status code 404".toList
    fetch2 := .ok ⟨some "tokenB".toList⟩
    stk2 := stkOkEx }

/-! ### Claim theorems for the orchestrator -/

/-- Claim **C8**: with mock mode enabled and `phone`/`amount` present (truthy),
`POST /api/pay` answers `200 {success:true}` with the mock message, and
the outbound-call trace is empty — no network call happens and token
acquisition is bypassed entirely, whatever the oracle would have
answered. -/
theorem mock_pay_short_circuit (cfg : Config) (phone amount : JsVal)
    (name : Option (List Char)) (nowIso : List Char) (o : Oracle)
    (hm : cfg.mpesaMock = true) (hp : jsTruthy phone = true)
    (ha : jsTruthy amount = true) :
    apiPay cfg phone amount name nowIso o =
      ({ status := 200, success := true,
         message := "STK Push sent to phone. (mock)".toList,
         details := none }, []) :=
  apiPay_mock_run cfg phone amount name nowIso o hm hp ha

/-- Witness for C8 at a concrete mock configuration and an oracle whose
every answer is a failure (none of which is consulted). -/
theorem mock_pay_short_circuit_witness :
    cfgMock.mpesaMock = true ∧ jsTruthy phoneEx = true ∧
    jsTruthy amountEx = true ∧
    apiPay cfgMock phoneEx amountEx none nowIsoEx
        ⟨.fail "down".toList, .err none "down".toList, .fail "down".toList,
         .err none "down".toList⟩ =
      ({ status := 200, success := true,
         message := "STK Push sent to phone. (mock)".toList,
         details := none }, []) :=
  ⟨by decide, by decide, by decide,
   mock_pay_short_circuit cfgMock phoneEx amountEx none nowIsoEx
     ⟨.fail "down".toList, .err none "down".toList, .fail "down".toList,
      .err none "down".toList⟩ (by decide) (by decide) (by decide)⟩

/-- Claim **C1**: in non-mock mode, when the first submission is rejected and
the rejection body matches the expired-token signature (`errorCode`
`404.001.03` or a message containing "Invalid Access Token"
case-insensitively), the handler performs exactly one token refresh
(two token calls in total) and at most one resubmission: exactly one when
the refresh yields a token, in which case the final response is exactly
the one determined by the resubmission's outcome (`stk2Response`), and
none when the refresh fails.  A rejection that does not match the
signature leads to no second token fetch and no resubmission. -/
theorem pay_retry_budget (cfg : Config) (phone amount : JsVal)
    (name : Option (List Char)) (nowIso : List Char) (o : Oracle)
    (remote : Option StkErrBody) (msg tok : List Char)
    (hm : cfg.mpesaMock = false) (hp : jsTruthy phone = true)
    (ha : jsTruthy amount = true)
    (htok : (getAccessToken cfg o.fetch1).token = some tok)
    (hne : tok.isEmpty = false)
    (hstk1 : o.stk1 = .err remote msg) :
    (isTokenError remote = true →
      countTokenCalls (apiPay cfg phone amount name nowIso o).2 = 2 ∧
      countStkCalls (apiPay cfg phone amount name nowIso o).2 ≤ 2 ∧
      (∀ tok2 : List Char,
        (getAccessToken cfg o.fetch2).token = some tok2 →
        tok2.isEmpty = false →
        countStkCalls (apiPay cfg phone amount name nowIso o).2 = 2 ∧
        (apiPay cfg phone amount name nowIso o).1 = stk2Response o.stk2) ∧
      (jsTruthyS (getAccessToken cfg o.fetch2).token = false →
        countStkCalls (apiPay cfg phone amount name nowIso o).2 = 1 ∧
        (apiPay cfg phone amount name nowIso o).1 =
          { status := 502, success := false,
            message := "Unable to refresh access token. Check credentials.".toList,
            details := none })) ∧
    (isTokenError remote = false →
      countTokenCalls (apiPay cfg phone amount name nowIso o).2 = 1 ∧
      countStkCalls (apiPay cfg phone amount name nowIso o).2 = 1 ∧
      (apiPay cfg phone amount name nowIso o).1 =
        { status := 502, success := false,
          message := "STK request failed".toList,
          details := some (errDetails remote msg) }) := by
  obtain ⟨f1, s1, f2, s2⟩ := o
  dsimp only at htok hstk1 ⊢
  subst hstk1
  constructor
  · intro herr
    by_cases h2 : jsTruthyS (getAccessToken cfg f2).token = true
    · obtain ⟨tok2, htok2, hne2⟩ := jsTruthyS_true h2
      rw [apiPay_retry_ok cfg phone amount name nowIso f1 remote msg f2 s2
        tok tok2 hm hp ha htok hne herr htok2 hne2]
      refine ⟨by simp [countTokenCalls], by simp [countStkCalls], ?_, ?_⟩
      · intro tok2' htok2' hne2'
        exact ⟨by simp [countStkCalls], rfl⟩
      · intro habs
        rw [h2] at habs
        cases habs
    · have h2' : jsTruthyS (getAccessToken cfg f2).token = false :=
        Bool.eq_false_iff.mpr h2
      rw [apiPay_retry_refresh_fail cfg phone amount name nowIso f1 remote
        msg f2 s2 tok hm hp ha htok hne herr h2']
      refine ⟨by simp [countTokenCalls], by simp [countStkCalls], ?_, ?_⟩
      · intro tok2' htok2' hne2'
        have : jsTruthyS (getAccessToken cfg f2).token = true := by
          rw [htok2']; simp [jsTruthyS, hne2']
        rw [this] at h2'
        cases h2'
      · intro _
        exact ⟨by simp [countStkCalls], rfl⟩
  · intro herr
    rw [apiPay_no_retry cfg phone amount name nowIso f1 remote msg f2 s2
      tok hm hp ha htok hne herr]
    exact ⟨by simp [countTokenCalls], by simp [countStkCalls], rfl⟩

/-- Witness for C1: the retry scenario oracle `oracleRetryEx`, whose
first submission fails with error code `404.001.03`; all hypotheses are
discharged by evaluation and the token-call count of the run is 2. -/
theorem pay_retry_budget_witness :
    cfgLive.mpesaMock = false ∧ jsTruthy phoneEx = true ∧
    jsTruthy amountEx = true ∧
    (getAccessToken cfgLive oracleRetryEx.fetch1).token =
      some "tokenA".toList ∧
    oracleRetryEx.stk1 =
      .err (some tokenErrEx) "Request failed with status code 404".toList ∧
    isTokenError (some tokenErrEx) = true ∧
    countTokenCalls
      (apiPay cfgLive phoneEx amountEx none nowIsoEx oracleRetryEx).2 = 2 :=
  ⟨by decide, by decide, by decide, by decide, by decide, by decide,
   (((pay_retry_budget cfgLive phoneEx amountEx none nowIsoEx oracleRetryEx
        (some tokenErrEx) "Request failed with status code 404".toList
        "tokenA".toList (by decide) (by decide) (by decide) (by decide)
        (by decide) (by decide)).1) (by decide)).1⟩

/-- Claim **C10**: when the expired-token retry happens, the trace of the run
is exactly `token, submit, token, resubmit`, and both submissions carry
the *same* payload term `buildPayload cfg phone amount name
(mpesaTimestamp nowIso)` — the timestamp (hence the password), the
normalized phone, the amount and the description are computed once before
the first attempt and reused verbatim; only the bearer token differs
between the two `stkPost` entries. -/
theorem retry_resubmits_same_payload (cfg : Config) (phone amount : JsVal)
    (name : Option (List Char)) (nowIso : List Char)
    (f1 : TokenFetch) (remote : Option StkErrBody) (msg : List Char)
    (f2 : TokenFetch) (s2 : StkOutcome) (tok tok2 : List Char)
    (hm : cfg.mpesaMock = false) (hp : jsTruthy phone = true)
    (ha : jsTruthy amount = true)
    (htok : (getAccessToken cfg f1).token = some tok)
    (hne : tok.isEmpty = false)
    (herr : isTokenError remote = true)
    (htok2 : (getAccessToken cfg f2).token = some tok2)
    (hne2 : tok2.isEmpty = false) :
    (apiPay cfg phone amount name nowIso ⟨f1, .err remote msg, f2, s2⟩).2 =
      [.tokenGet,
       .stkPost tok (buildPayload cfg phone amount name
         (mpesaTimestamp nowIso)),
       .tokenGet,
       .stkPost tok2 (buildPayload cfg phone amount name
         (mpesaTimestamp nowIso))] := by
  rw [apiPay_retry_ok cfg phone amount name nowIso f1 remote msg f2 s2
    tok tok2 hm hp ha htok hne herr htok2 hne2]

/-- Witness for C10 on the concrete retry oracle. -/
theorem retry_resubmits_same_payload_witness :
    (getAccessToken cfgLive (.ok ⟨some "tokenA".toList⟩)).token =
      some "tokenA".toList ∧
    isTokenError (some tokenErrEx) = true ∧
    (apiPay cfgLive phoneEx amountEx none nowIsoEx oracleRetryEx).2 =
      [.tokenGet,
       .stkPost "tokenA".toList (buildPayload cfgLive phoneEx amountEx none
         (mpesaTimestamp nowIsoEx)),
       .tokenGet,
       .stkPost "tokenB".toList (buildPayload cfgLive phoneEx amountEx none
         (mpesaTimestamp nowIsoEx))] :=
  ⟨by decide, by decide,
   retry_resubmits_same_payload cfgLive phoneEx amountEx none nowIsoEx
     (.ok ⟨some "tokenA".toList⟩) (some tokenErrEx)
     "Request failed with status code 404".toList
     (.ok ⟨some "tokenB".toList⟩) stkOkEx "tokenA".toList "tokenB".toList
     (by decide) (by decide) (by decide) (by decide) (by decide) (by decide)
     (by decide) (by decide)⟩

theorem stkRespToApi_success (data : Option StkBody) :
    (stkRespToApi data).success = true ↔
      ∃ b, data = some b ∧ b.ResponseCode = some "0".toList := by
  cases data with
  | none => simp [stkRespToApi]
  | some b =>
    by_cases he : b.ResponseCode = some "0".toList
    · simp [stkRespToApi, he]
    · have he' : ¬b.ResponseCode = some ['0'] := by simpa using he
      simp [stkRespToApi, he']

/-- Claim **C3** counterexample: with both credentials configured, a transport
failure of the *initial token fetch* makes `getAccessToken` return the
null sentinel, and the handler answers HTTP 500 ("Server not
configured…"), not 502 — the code cannot distinguish this case from
missing credentials. -/
theorem token_fetch_transport_500_counterexample :
    jsTruthyS cfgLive.consumerKey = true ∧
    jsTruthyS cfgLive.consumerSecret = true ∧
    cfgLive.mpesaMock = false ∧
    (apiPay cfgLive phoneEx amountEx none nowIsoEx
        ⟨.fail "connect ECONNREFUSED".toList, stkOkEx,
         .ok ⟨some "t".toList⟩, stkOkEx⟩).1.status = 500 ∧
    (apiPay cfgLive phoneEx amountEx none nowIsoEx
        ⟨.fail "connect ECONNREFUSED".toList, stkOkEx,
         .ok ⟨some "t".toList⟩, stkOkEx⟩).1.status ≠ 502 := by
  refine ⟨by decide, by decide, by decide, by decide, by decide⟩

/-- Claim **C3** (amended): whenever token acquisition yields no usable token —
credentials unconfigured *or* the initial token fetch failing in
transport — the handler answers 500; a transport/HTTP failure of the STK
submission itself is 502 with `details` (both for the first attempt, when
the body does not match the expired-token signature, and for the
resubmission); a failed token *refresh* during the retry is 502 without
`details`. -/
theorem pay_error_statuses (cfg : Config) (phone amount : JsVal)
    (name : Option (List Char)) (nowIso : List Char) (o : Oracle)
    (hm : cfg.mpesaMock = false) (hp : jsTruthy phone = true)
    (ha : jsTruthy amount = true) :
    (jsTruthyS (getAccessToken cfg o.fetch1).token = false →
      (apiPay cfg phone amount name nowIso o).1 =
        { status := 500, success := false,
          message := "Server not configured to fetch access token. Check environment variables.".toList,
          details := none }) ∧
    (∀ tok remote msg, (getAccessToken cfg o.fetch1).token = some tok →
      tok.isEmpty = false → o.stk1 = .err remote msg →
      isTokenError remote = false →
      (apiPay cfg phone amount name nowIso o).1 =
        { status := 502, success := false,
          message := "STK request failed".toList,
          details := some (errDetails remote msg) }) ∧
    (∀ tok remote msg tok2 remote2 msg2,
      (getAccessToken cfg o.fetch1).token = some tok →
      tok.isEmpty = false → o.stk1 = .err remote msg →
      isTokenError remote = true →
      (getAccessToken cfg o.fetch2).token = some tok2 →
      tok2.isEmpty = false → o.stk2 = .err remote2 msg2 →
      (apiPay cfg phone amount name nowIso o).1 =
        { status := 502, success := false,
          message := "STK request failed after token refresh".toList,
          details := some (errDetails remote2 msg2) }) ∧
    (∀ tok remote msg, (getAccessToken cfg o.fetch1).token = some tok →
      tok.isEmpty = false → o.stk1 = .err remote msg →
      isTokenError remote = true →
      jsTruthyS (getAccessToken cfg o.fetch2).token = false →
      (apiPay cfg phone amount name nowIso o).1 =
        { status := 502, success := false,
          message := "Unable to refresh access token. Check credentials.".toList,
          details := none }) := by
  obtain ⟨f1, s1, f2, s2⟩ := o
  dsimp only
  refine ⟨fun ht => ?_, fun tok remote msg htok hne hs1 herr => ?_,
    fun tok remote msg tok2 remote2 msg2 htok hne hs1 herr htok2 hne2 hs2 =>
      ?_,
    fun tok remote msg htok hne hs1 herr h2 => ?_⟩
  · rw [apiPay_token_unavailable cfg phone amount name nowIso
      ⟨f1, s1, f2, s2⟩ hm hp ha ht]
  · subst hs1
    rw [apiPay_no_retry cfg phone amount name nowIso f1 remote msg f2 s2
      tok hm hp ha htok hne herr]
  · subst hs1
    subst hs2
    rw [apiPay_retry_ok cfg phone amount name nowIso f1 remote msg f2
      (.err remote2 msg2) tok tok2 hm hp ha htok hne herr htok2 hne2]
    rfl
  · subst hs1
    rw [apiPay_retry_refresh_fail cfg phone amount name nowIso f1 remote
      msg f2 s2 tok hm hp ha htok hne herr h2]

/-- Witness for the amended C3, exercising the first conjunct: the run of
the C3 counterexample (credentials configured, token fetch failing in
transport) indeed produces the full 500 response. -/
theorem pay_error_statuses_witness :
    jsTruthyS (getAccessToken cfgLive
        (TokenFetch.fail "connect ECONNREFUSED".toList)).token = false ∧
    (apiPay cfgLive phoneEx amountEx none nowIsoEx
        ⟨.fail "connect ECONNREFUSED".toList, stkOkEx,
         .ok ⟨some "t".toList⟩, stkOkEx⟩).1 =
      { status := 500, success := false,
        message := "Server not configured to fetch access token. Check environment variables.".toList,
        details := none } :=
  ⟨by decide,
   (pay_error_statuses cfgLive phoneEx amountEx none nowIsoEx
      ⟨.fail "connect ECONNREFUSED".toList, stkOkEx,
       .ok ⟨some "t".toList⟩, stkOkEx⟩ (by decide) (by decide)
      (by decide)).1 (by decide)⟩

/-- Claim **C7**: a resolved gateway response (HTTP 2xx, hence also HTTP 200)
whose `ResponseCode` is not the string `"0"` yields
`400 {success:false}` with the response body attached as `details`
(this holds for the first submission and for the resubmission);
`ResponseCode "0"` yields `200 {success:true}`; and a success response
can *only* arise from some resolved outcome carrying `ResponseCode "0"`. -/
theorem gateway_code_gate (cfg : Config) (phone amount : JsVal)
    (name : Option (List Char)) (nowIso : List Char) (o : Oracle)
    (tok : List Char)
    (hm : cfg.mpesaMock = false) (hp : jsTruthy phone = true)
    (ha : jsTruthy amount = true)
    (htok : (getAccessToken cfg o.fetch1).token = some tok)
    (hne : tok.isEmpty = false) :
    (∀ b, o.stk1 = .ok (some b) → b.ResponseCode ≠ some "0".toList →
      (apiPay cfg phone amount name nowIso o).1 =
        { status := 400, success := false,
          message := "Failed to send STK Push.".toList,
          details := some (.stk b) }) ∧
    (∀ b, o.stk1 = .ok (some b) → b.ResponseCode = some "0".toList →
      (apiPay cfg phone amount name nowIso o).1 =
        { status := 200, success := true,
          message := "STK Push sent to phone.".toList, details := none }) ∧
    (∀ remote msg tok2 b, o.stk1 = .err remote msg →
      isTokenError remote = true →
      (getAccessToken cfg o.fetch2).token = some tok2 →
      tok2.isEmpty = false → o.stk2 = .ok (some b) →
      b.ResponseCode ≠ some "0".toList →
      (apiPay cfg phone amount name nowIso o).1 =
        { status := 400, success := false,
          message := "Failed to send STK Push.".toList,
          details := some (.stk b) }) ∧
    ((apiPay cfg phone amount name nowIso o).1.success = true →
      (∃ b, o.stk1 = .ok (some b) ∧ b.ResponseCode = some "0".toList) ∨
      (∃ b, o.stk2 = .ok (some b) ∧ b.ResponseCode = some "0".toList)) := by
  obtain ⟨f1, s1, f2, s2⟩ := o
  dsimp only at htok ⊢
  refine ⟨fun b hs1 hrc => ?_, fun b hs1 hrc => ?_,
    fun remote msg tok2 b hs1 herr htok2 hne2 hs2 hrc => ?_, fun hsucc => ?_⟩
  · subst hs1
    rw [apiPay_first_ok cfg phone amount name nowIso f1 (some b) f2 s2 tok
      hm hp ha htok hne]
    have hrc' : ¬b.ResponseCode = some ['0'] := by simpa using hrc
    simp [stkRespToApi, hrc']
  · subst hs1
    rw [apiPay_first_ok cfg phone amount name nowIso f1 (some b) f2 s2 tok
      hm hp ha htok hne]
    simp [stkRespToApi, hrc]
  · subst hs1
    subst hs2
    rw [apiPay_retry_ok cfg phone amount name nowIso f1 remote msg f2
      (.ok (some b)) tok tok2 hm hp ha htok hne herr htok2 hne2]
    have hrc' : ¬b.ResponseCode = some ['0'] := by simpa using hrc
    simp [stk2Response, stkRespToApi, hrc']
  · cases s1 with
    | ok data =>
      rw [apiPay_first_ok cfg phone amount name nowIso f1 data f2 s2 tok
        hm hp ha htok hne] at hsucc
      obtain ⟨b, hb, hrc⟩ := (stkRespToApi_success data).mp hsucc
      exact .inl ⟨b, by rw [hb], hrc⟩
    | err remote msg =>
      by_cases herr : isTokenError remote = true
      · by_cases h2 : jsTruthyS (getAccessToken cfg f2).token = true
        · obtain ⟨tok2, htok2, hne2⟩ := jsTruthyS_true h2
          rw [apiPay_retry_ok cfg phone amount name nowIso f1 remote msg f2
            s2 tok tok2 hm hp ha htok hne herr htok2 hne2] at hsucc
          cases s2 with
          | ok data2 =>
            obtain ⟨b, hb, hrc⟩ :=
              (stkRespToApi_success data2).mp (by simpa [stk2Response]
                using hsucc)
            exact .inr ⟨b, by rw [hb], hrc⟩
          | err remote2 msg2 => simp [stk2Response] at hsucc
        · have h2' : jsTruthyS (getAccessToken cfg f2).token = false :=
            Bool.eq_false_iff.mpr h2
          rw [apiPay_retry_refresh_fail cfg phone amount name nowIso f1
            remote msg f2 s2 tok hm hp ha htok hne herr h2'] at hsucc
          simp at hsucc
      · have herr' : isTokenError remote = false :=
          Bool.eq_false_iff.mpr herr
        rw [apiPay_no_retry cfg phone amount name nowIso f1 remote msg f2
          s2 tok hm hp ha htok hne herr'] at hsucc
        simp at hsucc

/-- Witness for C7: a concrete run whose resolved response carries
`ResponseCode "1032"` on HTTP 200 is answered with 400 and the body as
`details`. -/
theorem gateway_code_gate_witness :
    (getAccessToken cfgLive (.ok ⟨some "tokenA".toList⟩)).token =
      some "tokenA".toList ∧
    (apiPay cfgLive phoneEx amountEx none nowIsoEx
        ⟨.ok ⟨some "tokenA".toList⟩,
         .ok (some { ResponseCode := some "1032".toList,
                     CustomerMessage := some "Request cancelled by user".toList,
                     MerchantRequestID := none }),
         .ok ⟨some "t".toList⟩, stkOkEx⟩).1 =
      { status := 400, success := false,
        message := "Failed to send STK Push.".toList,
        details := some (.stk { ResponseCode := some "1032".toList,
                                CustomerMessage := some "Request cancelled by user".toList,
                                MerchantRequestID := none }) } :=
  ⟨by decide,
   (gateway_code_gate cfgLive phoneEx amountEx none nowIsoEx
      ⟨.ok ⟨some "tokenA".toList⟩,
       .ok (some { ResponseCode := some "1032".toList,
                   CustomerMessage := some "Request cancelled by user".toList,
                   MerchantRequestID := none }),
       .ok ⟨some "t".toList⟩, stkOkEx⟩ "tokenA".toList (by decide)
      (by decide) (by decide) (by decide) (by decide)).1 _ rfl (by decide)⟩

theorem apiResp_ne_of_status {a b : ApiResp} (h : ¬a.status = b.status) :
    ¬a = b :=
  fun he => h (congrArg ApiResp.status he)

theorem apiResp_ne_of_message {a b : ApiResp} (h : ¬a.message = b.message) :
    ¬a = b :=
  fun he => h (congrArg ApiResp.message he)

theorem stkRespToApi_ne_missing (data : Option StkBody) :
    ¬stkRespToApi data =
      { status := 400, success := false,
        message := "Missing phone or amount in request body.".toList,
        details := none } := by
  cases data with
  | none => decide
  | some b =>
    by_cases he : b.ResponseCode = some "0".toList
    · have hst : (stkRespToApi (some b)).status = 200 := by
        simp [stkRespToApi, he]
      exact apiResp_ne_of_status (by rw [hst]; decide)
    · have he' : ¬b.ResponseCode = some ['0'] := by simpa using he
      have hmsg : (stkRespToApi (some b)).message =
          "Failed to send STK Push.".toList := by
        simp [stkRespToApi, he']
      exact apiResp_ne_of_message (by rw [hmsg]; decide)

theorem stk2Response_ne_missing (s2 : StkOutcome) :
    ¬stk2Response s2 =
      { status := 400, success := false,
        message := "Missing phone or amount in request body.".toList,
        details := none } := by
  cases s2 with
  | ok data2 => exact stkRespToApi_ne_missing data2
  | err r m => exact apiResp_ne_of_status (show ¬(502 : Nat) = 400 by decide)

/-- Claim **C4** counterexample: an `amount` equal to the number 0 is *present* in
the request body, yet the handler answers the validation 400 ("Missing
phone or amount…") and forwards nothing — the trace is empty — because
the presence check `if (!phone || !amount)` is a JS truthiness check and
0 is falsy. -/
theorem amount_zero_rejected_counterexample :
    JsVal.vnum 0 ≠ JsVal.vundef ∧
    (apiPay cfgLive phoneEx (.vnum 0) none nowIsoEx oracleRetryEx).1 =
      { status := 400, success := false,
        message := "Missing phone or amount in request body.".toList,
        details := none } ∧
    (apiPay cfgLive phoneEx (.vnum 0) none nowIsoEx oracleRetryEx).2 =
      [] := by
  refine ⟨by decide, by decide, by decide⟩

/-- Claim **C4** (amended): `POST /api/pay` answers the validation failure
(400, `success:false`, "Missing phone or amount in request body.")
*exactly* when `phone` or `amount` is absent or JS-falsy (`undefined`,
`""`, or the number 0); a JS-truthy `amount` — of any type — is placed in
the gateway payload's `Amount` field verbatim, with no range or type
validation. -/
theorem pay_validation_amended (cfg : Config) (phone amount : JsVal)
    (name : Option (List Char)) (nowIso : List Char) (o : Oracle) :
    ((apiPay cfg phone amount name nowIso o).1 =
        { status := 400, success := false,
          message := "Missing phone or amount in request body.".toList,
          details := none } ↔
      (jsTruthy phone = false ∨ jsTruthy amount = false)) ∧
    (∀ tok data, cfg.mpesaMock = false → jsTruthy phone = true →
      jsTruthy amount = true →
      (getAccessToken cfg o.fetch1).token = some tok → tok.isEmpty = false →
      o.stk1 = .ok data →
      (apiPay cfg phone amount name nowIso o).2 =
        [.tokenGet, .stkPost tok (buildPayload cfg phone amount name
          (mpesaTimestamp nowIso))] ∧
      (buildPayload cfg phone amount name (mpesaTimestamp nowIso)).Amount =
        amount) := by
  constructor
  · constructor
    · intro hresp
      by_contra hfalsy
      push_neg at hfalsy
      obtain ⟨hp', ha'⟩ := hfalsy
      have hp : jsTruthy phone = true := by
        revert hp'; cases jsTruthy phone <;> simp
      have ha : jsTruthy amount = true := by
        revert ha'; cases jsTruthy amount <;> simp
      obtain ⟨f1, s1, f2, s2⟩ := o
      by_cases hm : cfg.mpesaMock = true
      · rw [apiPay_mock_run cfg phone amount name nowIso ⟨f1, s1, f2, s2⟩
          hm hp ha] at hresp
        exact absurd hresp
          (apiResp_ne_of_status (show ¬(200 : Nat) = 400 by decide))
      · have hm' : cfg.mpesaMock = false := Bool.eq_false_iff.mpr hm
        by_cases ht : jsTruthyS (getAccessToken cfg f1).token = true
        · obtain ⟨tok, htok, hne⟩ := jsTruthyS_true ht
          cases s1 with
          | ok data =>
            rw [apiPay_first_ok cfg phone amount name nowIso f1 data f2 s2
              tok hm' hp ha htok hne] at hresp
            exact absurd hresp (stkRespToApi_ne_missing data)
          | err remote msg =>
            by_cases herr : isTokenError remote = true
            · by_cases h2 : jsTruthyS (getAccessToken cfg f2).token = true
              · obtain ⟨tok2, htok2, hne2⟩ := jsTruthyS_true h2
                rw [apiPay_retry_ok cfg phone amount name nowIso f1 remote
                  msg f2 s2 tok tok2 hm' hp ha htok hne herr htok2
                  hne2] at hresp
                exact absurd hresp (stk2Response_ne_missing s2)
              · have h2' : jsTruthyS (getAccessToken cfg f2).token = false :=
                  Bool.eq_false_iff.mpr h2
                rw [apiPay_retry_refresh_fail cfg phone amount name nowIso
                  f1 remote msg f2 s2 tok hm' hp ha htok hne herr
                  h2'] at hresp
                exact absurd hresp
                  (apiResp_ne_of_status (show ¬(502 : Nat) = 400 by decide))
            · have herr' : isTokenError remote = false :=
                Bool.eq_false_iff.mpr herr
              rw [apiPay_no_retry cfg phone amount name nowIso f1 remote
                msg f2 s2 tok hm' hp ha htok hne herr'] at hresp
              exact absurd hresp
                (apiResp_ne_of_status (show ¬(502 : Nat) = 400 by decide))
        · have ht' : jsTruthyS (getAccessToken cfg f1).token = false :=
            Bool.eq_false_iff.mpr ht
          rw [apiPay_token_unavailable cfg phone amount name nowIso
            ⟨f1, s1, f2, s2⟩ hm' hp ha ht'] at hresp
          exact absurd hresp
            (apiResp_ne_of_status (show ¬(500 : Nat) = 400 by decide))
    · intro h
      have hcond : (!(jsTruthy phone) || !(jsTruthy amount)) = true := by
        rcases h with h | h <;> simp [h]
      rw [apiPay_validation_fail cfg phone amount name nowIso o hcond]
  · intro tok data hm hp ha htok hne hs1
    obtain ⟨f1, s1, f2, s2⟩ := o
    dsimp only at htok hs1 ⊢
    subst hs1
    rw [apiPay_first_ok cfg phone amount name nowIso f1 data f2 s2 tok hm
      hp ha htok hne]
    exact ⟨rfl, rfl⟩

/-- Witness for the amended C4: a non-numeric string amount (`"abc"`) is
truthy, so the validation passes and `"abc"` is forwarded verbatim in the
payload's `Amount`; and the validation-iff instantiates at `amount = 0`. -/
theorem pay_validation_amended_witness :
    jsTruthy (JsVal.vstr "abc".toList) = true ∧
    (apiPay cfgLive phoneEx (.vstr "abc".toList) none nowIsoEx
        ⟨.ok ⟨some "tokenA".toList⟩, stkOkEx, .ok ⟨some "t".toList⟩,
         stkOkEx⟩).2 =
      [.tokenGet, .stkPost "tokenA".toList (buildPayload cfgLive phoneEx
        (.vstr "abc".toList) none (mpesaTimestamp nowIsoEx))] ∧
    (buildPayload cfgLive phoneEx (.vstr "abc".toList) none
        (mpesaTimestamp nowIsoEx)).Amount = .vstr "abc".toList ∧
    ((apiPay cfgLive phoneEx (.vnum 0) none nowIsoEx oracleRetryEx).1 =
        { status := 400, success := false,
          message := "Missing phone or amount in request body.".toList,
          details := none } ↔
      (jsTruthy phoneEx = false ∨ jsTruthy (JsVal.vnum 0) = false)) :=
  ⟨by decide,
   ((pay_validation_amended cfgLive phoneEx (.vstr "abc".toList) none
       nowIsoEx ⟨.ok ⟨some "tokenA".toList⟩, stkOkEx, .ok ⟨some "t".toList⟩,
       stkOkEx⟩).2 "tokenA".toList
     (some { ResponseCode := some "0".toList, CustomerMessage := none,
             MerchantRequestID := none })
     (by decide) (by decide) (by decide) (by decide) (by decide) rfl).1,
   ((pay_validation_amended cfgLive phoneEx (.vstr "abc".toList) none
       nowIsoEx ⟨.ok ⟨some "tokenA".toList⟩, stkOkEx, .ok ⟨some "t".toList⟩,
       stkOkEx⟩).2 "tokenA".toList
     (some { ResponseCode := some "0".toList, CustomerMessage := none,
             MerchantRequestID := none })
     (by decide) (by decide) (by decide) (by decide) (by decide) rfl).2,
   (pay_validation_amended cfgLive phoneEx (.vnum 0) none nowIsoEx
     oracleRetryEx).1⟩

/-- Claim **C5**: `getAccessToken` never throws past its boundary — it is a
total function of the configuration and of the token request's outcome —
and: in mock mode it returns the fixed placeholder token with no network
call; with a falsy `CONSUMER_KEY` or `CONSUMER_SECRET` it returns the
null sentinel with no network call; when the token request rejects it
logs a description of the failure and returns the same sentinel; when the
request resolves it returns exactly the `access_token` found in the
response body. -/
theorem getAccessToken_spec (cfg : Config) (fetch : TokenFetch) :
    (cfg.mpesaMock = true →
      getAccessToken cfg fetch =
        { token := some "mock-access-token".toList, logs := [],
          calls := [] }) ∧
    (cfg.mpesaMock = false →
      (jsTruthyS cfg.consumerKey = false ∨
        jsTruthyS cfg.consumerSecret = false) →
      (getAccessToken cfg fetch).token = none ∧
        (getAccessToken cfg fetch).calls = []) ∧
    (cfg.mpesaMock = false → jsTruthyS cfg.consumerKey = true →
      jsTruthyS cfg.consumerSecret = true →
      (∀ desc, fetch = .fail desc →
        getAccessToken cfg fetch =
          { token := none,
            logs := ["Error fetching token: ".toList ++ desc],
            calls := [.tokenGet] }) ∧
      (∀ d, fetch = .ok d →
        getAccessToken cfg fetch =
          { token := d.access_token,
            logs := ["Fetched access token successfully".toList],
            calls := [.tokenGet] })) := by
  refine ⟨fun hm => ?_, fun hm hcred => ?_, fun hm hk hs => ⟨?_, ?_⟩⟩
  · simp [getAccessToken, hm]
  · rcases hcred with hc | hc <;> simp [getAccessToken, hm, hc]
  · intro desc hf
    subst hf
    simp [getAccessToken, hm, hk, hs]
  · intro d hf
    subst hf
    simp [getAccessToken, hm, hk, hs]

/-- Witness for C5: the mock configuration returns the placeholder token
and performs no call even when the network would be down. -/
theorem getAccessToken_spec_witness :
    cfgMock.mpesaMock = true ∧
    getAccessToken cfgMock (.fail "net down".toList) =
      { token := some "mock-access-token".toList, logs := [],
        calls := [] } :=
  ⟨by decide,
   (getAccessToken_spec cfgMock (.fail "net down".toList)).1 (by decide)⟩

theorem jsTruthyS_none : jsTruthyS none = false := rfl

theorem jsTruthyS_some (s : List Char) : jsTruthyS (some s) = !s.isEmpty :=
  rfl

theorem apiToken_nocreds (cfg : Config) (f : TokenFetch)
    (hm : cfg.mpesaMock = false)
    (hc : jsTruthyS cfg.consumerKey = false ∨
      jsTruthyS cfg.consumerSecret = false) :
    apiToken cfg f =
      { status := 502, success := false,
        message := "Unable to fetch access token. Check credentials.".toList,
        token := none } := by
  rcases hc with hc | hc <;>
    simp [apiToken, getAccessToken, hm, hc, jsTruthyS_none]

theorem apiToken_live (cfg : Config)
    (hm : cfg.mpesaMock = false) (hk : jsTruthyS cfg.consumerKey = true)
    (hs : jsTruthyS cfg.consumerSecret = true) (t : List Char) :
    apiToken cfg (.ok ⟨some t⟩) =
      if t.isEmpty then
        { status := 502, success := false,
          message := "Unable to fetch access token. Check credentials.".toList,
          token := none }
      else
        { status := 200, success := true,
          message := "Fetched access token".toList,
          token := some (t.take 6 ++ "...".toList) } := by
  by_cases he : t.isEmpty = true
  · simp [apiToken, getAccessToken, hm, hk, hs, jsTruthyS_some, he]
  · have he' : t.isEmpty = false := Bool.eq_false_iff.mpr he
    simp [apiToken, getAccessToken, hm, hk, hs, jsTruthyS_some, he']

theorem isEmpty_eq_of_take6 {t1 t2 : List Char}
    (h : t1.take 6 = t2.take 6) : t1.isEmpty = t2.isEmpty := by
  cases t1 with
  | nil =>
    cases t2 with
    | nil => rfl
    | cons b u =>
      rw [show (6 : Nat) = 5 + 1 from rfl, List.take_nil,
        List.take_succ_cons] at h
      exact absurd h (by simp)
  | cons a v =>
    cases t2 with
    | nil =>
      rw [show (6 : Nat) = 5 + 1 from rfl, List.take_nil,
        List.take_succ_cons] at h
      exact absurd h (by simp)
    | cons b u => rfl

/-- Claim **C6**: in non-mock mode `GET /api/token` cannot distinguish two real
tokens that agree on their first 6 characters — the two runs produce
identical responses — and a successful response's `token` field is
exactly the token's first 6 characters followed by `"..."`; hence no
response contains more than 6 literal characters of the real token. -/
theorem token_endpoint_masks (cfg : Config) (t1 t2 : List Char)
    (hm : cfg.mpesaMock = false) (h6 : t1.take 6 = t2.take 6) :
    apiToken cfg (.ok ⟨some t1⟩) = apiToken cfg (.ok ⟨some t2⟩) ∧
    (jsTruthyS cfg.consumerKey = true →
      jsTruthyS cfg.consumerSecret = true → t1.isEmpty = false →
      apiToken cfg (.ok ⟨some t1⟩) =
        { status := 200, success := true,
          message := "Fetched access token".toList,
          token := some (t1.take 6 ++ "...".toList) }) := by
  constructor
  · by_cases hk : jsTruthyS cfg.consumerKey = true
    · by_cases hs : jsTruthyS cfg.consumerSecret = true
      · rw [apiToken_live cfg hm hk hs t1, apiToken_live cfg hm hk hs t2,
          isEmpty_eq_of_take6 h6, h6]
      · have hs' := Bool.eq_false_iff.mpr hs
        rw [apiToken_nocreds cfg _ hm (.inr hs'),
          apiToken_nocreds cfg _ hm (.inr hs')]
    · have hk' := Bool.eq_false_iff.mpr hk
      rw [apiToken_nocreds cfg _ hm (.inl hk'),
        apiToken_nocreds cfg _ hm (.inl hk')]
  · intro hk hs hne
    rw [apiToken_live cfg hm hk hs t1, hne]
    rfl

/-- Witness for C6: two tokens sharing the 6-character prefix `SECRET`
produce identical responses, and the masked field exposes exactly
`SECRET...`. -/
theorem token_endpoint_masks_witness :
    cfgLive.mpesaMock = false ∧
    "SECRETTOKEN123".toList.take 6 = "SECRETXYZ999".toList.take 6 ∧
    apiToken cfgLive (.ok ⟨some "SECRETTOKEN123".toList⟩) =
      apiToken cfgLive (.ok ⟨some "SECRETXYZ999".toList⟩) ∧
    apiToken cfgLive (.ok ⟨some "SECRETTOKEN123".toList⟩) =
      { status := 200, success := true,
        message := "Fetched access token".toList,
        token := some ("SECRETTOKEN123".toList.take 6 ++ "...".toList) } :=
  ⟨by decide, by decide,
   (token_endpoint_masks cfgLive "SECRETTOKEN123".toList
      "SECRETXYZ999".toList (by decide) (by decide)).1,
   (token_endpoint_masks cfgLive "SECRETTOKEN123".toList
      "SECRETXYZ999".toList (by decide) (by decide)).2 (by decide)
     (by decide) (by decide)⟩

end Mpesa
